import Mathlib

/-!
Verification development for the CashCurve forecasting script
(`dividend_ai.py`).  The Python floats are modelled by exact rationals
(and by reals where a real-exponent power is computed); Python dicts with
fixed string keys are modelled by a structure together with the literal
key/value association list the script builds; a Python `ZeroDivisionError`
is modelled by `Except.error`.
-/

namespace CashCurve

/-- Rounding to two decimal places, modelling the Python call `round(x, 2)`
(on the exact inputs appearing in this development no tie cases arise,
so the tie-breaking convention is irrelevant). -/
def round2 (x : ℚ) : ℚ := (round (x * 100) : ℚ) / 100

/-- Rounding to four decimal places, modelling the Python call `round(x, 4)`. -/
def round4 (x : ℚ) : ℚ := (round (x * 10000) : ℚ) / 10000

/-- The fields of the yfinance `info` dict that `compute_forecast` reads
(lines 55-57 of `dividend_ai.py`).  `none` models a missing key or a
Python `None` value; the script maps both to `0.0` via `.get(..., 0.0)`
and `or 0.0`. -/
structure Info where
  regularMarketPrice : Option ℚ
  dividendRate : Option ℚ
  dividendYield : Option ℚ
deriving DecidableEq

/-- Line 55: `price = info.get("regularMarketPrice", 0.0)`. -/
def priceOf (info : Info) : ℚ := info.regularMarketPrice.getD 0

/-- Line 56: `div_rate = info.get("dividendRate", 0.0) or 0.0`. -/
def rawRate (info : Info) : ℚ := info.dividendRate.getD 0

/-- Line 57: `dy = info.get("dividendYield", 0.0) or 0.0`. -/
def dyOf (info : Info) : ℚ := info.dividendYield.getD 0

/-- Lines 58-59: `if div_rate == 0 and dy > 0 and price > 0:
div_rate = price * dy`.  The dividend rate actually used downstream. -/
def rateOf (info : Info) : ℚ :=
  if rawRate info = 0 ∧ 0 < dyOf info ∧ 0 < priceOf info then
    priceOf info * dyOf info
  else rawRate info

/-- One iteration of the DRIP loop body (line 67):
`shares += (shares * div_rate) / price`.  Python float division by an
exact zero raises `ZeroDivisionError`, modelled by `Except.error ()`. -/
def dripStep (price div_rate s : ℚ) : Except Unit ℚ :=
  if price = 0 then .error () else .ok (s + s * div_rate / price)

/-- The DRIP loop (lines 66-67): `for _ in range(term): shares += ...`,
propagating a division fault from any iteration. -/
def dripLoop (price div_rate s : ℚ) : ℕ → Except Unit ℚ
  | 0 => .ok s
  | n + 1 =>
    match dripStep price div_rate s with
    | .error e => .error e
    | .ok s2 => dripLoop price div_rate s2 n

/-- The value computed by the DRIP loop when no fault occurs: `n`
whole-year steps of `s := s + s * div_rate / price`. -/
def dripShares (price div_rate s : ℚ) : ℕ → ℚ
  | 0 => s
  | n + 1 => dripShares price div_rate (s + s * div_rate / price) n

/-- The record returned by `compute_forecast` (lines 76-86), one field
per key of the Python dict, in the order of the dict. -/
structure Forecast where
  currentPrice : ℚ
  dividendPerShare : ℚ
  dividendYieldPct : ℚ
  estimatedShares : ℚ
  annualDividendIncome : ℚ
  growthRateUsed : ℚ
  futurePriceEstimate : ℚ
  totalDividendsOverTerm : ℚ
  projectedAssetValue : ℚ
deriving DecidableEq

/-- The literal key/value association list of the dict built on lines
76-86, with the exact string keys of the source. -/
def forecastDict (f : Forecast) : List (String × ℚ) :=
  [ ("Current Price", f.currentPrice),
    ("Dividend/Share ($/yr)", f.dividendPerShare),
    ("Dividend Yield (%)", f.dividendYieldPct),
    ("Estimated Shares", f.estimatedShares),
    ("Annual Dividend Income ($)", f.annualDividendIncome),
    ("Growth Rate Used (%)", f.growthRateUsed),
    ("Future Price Estimate", f.futurePriceEstimate),
    ("Total Dividends Over Term", f.totalDividendsOverTerm),
    ("Projected Asset Value", f.projectedAssetValue) ]

/-- Line 61: `shares = amount / price if price > 0 else 0`. -/
def sharesInit (info : Info) (amount : ℚ) : ℚ :=
  if 0 < priceOf info then amount / priceOf info else 0

/-- Embedding of `compute_forecast` (lines 54-86).  The `hist` argument is accepted,
as in the source, where it is never read.  The result is `Except` so
that the unguarded division by zero on line 67 (price exactly `0` with
DRIP enabled and at least one loop iteration) is visible as a fault. -/
def compute_forecast (info : Info) (hist : List (ℤ × ℚ)) (amount : ℚ)
    (term : ℕ) (drip : Bool) (growth_rate : ℚ) : Except Unit Forecast :=
  let price := priceOf info
  let div_rate := rateOf info
  let dy := dyOf info
  let shares := sharesInit info amount
  let annual_div := shares * div_rate
  let growth_factor := 1 + growth_rate / 100
  match drip with
  | true =>
    match dripLoop price div_rate shares term with
    | .error e => .error e
    | .ok shares2 =>
      let future_price := price * growth_factor ^ term
      let future_value := shares2 * future_price
      let total_div := shares2 * div_rate * (term : ℚ)
      .ok ⟨round2 price, round2 div_rate, round2 (dy * 100),
        round4 shares2, round2 annual_div, round2 growth_rate,
        round2 future_price, round2 total_div, round2 future_value⟩
  | false =>
    let future_price := price * growth_factor ^ term
    let future_value := shares * future_price
    let total_div := annual_div * (term : ℚ)
    .ok ⟨round2 price, round2 div_rate, round2 (dy * 100),
      round4 shares, round2 annual_div, round2 growth_rate,
      round2 future_price, round2 total_div, round2 future_value⟩

/-- Day-over-day deltas, modelling `series.diff().dropna()` (line 90):
element `i` is `series[i+1] - series[i]`. -/
def deltas (s : List ℚ) : List ℚ := List.zipWith (· - ·) s.tail s

/-- The last `n` elements of a list; the window over which the last
entry of `rolling(window=n).mean()` averages. -/
def lastWindow (n : ℕ) (l : List ℚ) : List ℚ := l.drop (l.length - n)

/-- Embedding of `compute_rsi` (lines 89-96), evaluated at its last position
(`.iloc[-1]`).  `none` models a NaN result: a rolling window that is not
yet full, or the `0/0` average-gain/average-loss case.  A positive
average gain over a zero average loss gives `RS = +infinity` under numpy
float semantics, hence `RSI = 100 - 100/(1 + RS) = 100`. -/
def compute_rsi (series : List ℚ) (period : ℕ) : Option ℚ :=
  let d := deltas series
  if d = [] then some 0
  else if d.length < period then none
  else
    let w := lastWindow period d
    let avg_gain := (w.map (fun x => max x 0)).sum / (period : ℚ)
    let avg_loss := (w.map (fun x => max (-x) 0)).sum / (period : ℚ)
    if avg_loss = 0 then
      if avg_gain = 0 then none else some 100
    else some (100 - 100 / (1 + avg_gain / avg_loss))

/-- Line 157: `trend = "Overbought" if rsi > 70 else "Oversold" if
rsi < 30 else "Neutral"`. -/
def classify_trend (rsi : ℚ) : String :=
  if rsi > 70 then "Overbought" else if rsi < 30 then "Oversold" else "Neutral"

/-- Rounding a real to two decimal places, the Python call `round(x, 2)`. -/
noncomputable def rround2 (x : ℝ) : ℝ := (round (x * 100) : ℝ) / 100

/-- Embedding of `calculate_cagr` (lines 41-51) over a close-price series of
(timestamp in days, close) pairs; the difference of timestamps in days
models `(close.index[-1] - close.index[0]).days`.  Reals are used
because the source computes a real-exponent power `** (1 / years)`. -/
noncomputable def calculate_cagr (hist : List (ℤ × ℝ)) : ℝ × ℝ × ℝ :=
  if hist.length < 2 then (0, 0, 0)
  else
    let first := hist.headI
    let last := hist.getLastI
    let years : ℝ := ((last.1 - first.1 : ℤ) : ℝ) / 365
    if first.2 ≤ 0 ∨ years ≤ 0 then (0, first.2, last.2)
    else
      (rround2 (((last.2 / first.2) ^ (1 / years) - 1) * 100),
        rround2 first.2, rround2 last.2)

/-! Helper lemmas: evaluation of the rounding functions and of the DRIP
loop.  None of them is specific to a single claim. -/

theorem round2_between (x : ℚ) (n : ℤ) (h1 : (n : ℚ) ≤ x * 100 + 1/2)
    (h2 : x * 100 + 1/2 < (n : ℚ) + 1) : round2 x = (n : ℚ) / 100 := by
  unfold round2
  rw [round_eq, show (⌊x * 100 + 1/2⌋ : ℤ) = n from
    Int.floor_eq_iff.mpr ⟨h1, by exact_mod_cast h2⟩]

theorem round4_between (x : ℚ) (n : ℤ) (h1 : (n : ℚ) ≤ x * 10000 + 1/2)
    (h2 : x * 10000 + 1/2 < (n : ℚ) + 1) : round4 x = (n : ℚ) / 10000 := by
  unfold round4
  rw [round_eq, show (⌊x * 10000 + 1/2⌋ : ℤ) = n from
    Int.floor_eq_iff.mpr ⟨h1, by exact_mod_cast h2⟩]

theorem round2_zero : round2 0 = 0 := by
  simp [round2]

theorem round4_zero : round4 0 = 0 := by
  simp [round4]

theorem dripLoop_ok (p r : ℚ) (hp : p ≠ 0) :
    ∀ (n : ℕ) (s : ℚ), dripLoop p r s n = .ok (dripShares p r s n) := by
  intro n
  induction n with
  | zero => intro s; rfl
  | succ m ih =>
    intro s
    simp only [dripLoop, dripStep, if_neg hp, dripShares]
    exact ih _

theorem dripLoop_zero_price (r s : ℚ) (n : ℕ) (hn : n ≠ 0) :
    dripLoop 0 r s n = .error () := by
  cases n with
  | zero => exact absurd rfl hn
  | succ m => simp [dripLoop, dripStep]

theorem dripShares_zero_start (p r : ℚ) : ∀ n : ℕ, dripShares p r 0 n = 0 := by
  intro n
  induction n with
  | zero => rfl
  | succ m ih => simpa [dripShares] using ih

theorem dripShares_rate_zero (p : ℚ) : ∀ (n : ℕ) (s : ℚ), dripShares p 0 s n = s := by
  intro n
  induction n with
  | zero => intro s; rfl
  | succ m ih => intro s; simpa [dripShares] using ih _

theorem compute_forecast_false (info : Info) (hist : List (ℤ × ℚ))
    (amount : ℚ) (term : ℕ) (g : ℚ) :
    compute_forecast info hist amount term false g =
      .ok ⟨round2 (priceOf info), round2 (rateOf info), round2 (dyOf info * 100),
        round4 (sharesInit info amount),
        round2 (sharesInit info amount * rateOf info), round2 g,
        round2 (priceOf info * (1 + g / 100) ^ term),
        round2 (sharesInit info amount * rateOf info * (term : ℚ)),
        round2 (sharesInit info amount * (priceOf info * (1 + g / 100) ^ term))⟩ :=
  rfl

theorem compute_forecast_true_ok (info : Info) (hist : List (ℤ × ℚ))
    (amount : ℚ) (term : ℕ) (g : ℚ) (hp : priceOf info ≠ 0) :
    compute_forecast info hist amount term true g =
      .ok ⟨round2 (priceOf info), round2 (rateOf info), round2 (dyOf info * 100),
        round4 (dripShares (priceOf info) (rateOf info) (sharesInit info amount) term),
        round2 (sharesInit info amount * rateOf info), round2 g,
        round2 (priceOf info * (1 + g / 100) ^ term),
        round2 (dripShares (priceOf info) (rateOf info) (sharesInit info amount) term *
          rateOf info * (term : ℚ)),
        round2 (dripShares (priceOf info) (rateOf info) (sharesInit info amount) term *
          (priceOf info * (1 + g / 100) ^ term))⟩ := by
  simp only [compute_forecast, dripLoop_ok _ _ hp]

theorem compute_forecast_true_err (info : Info) (hist : List (ℤ × ℚ))
    (amount : ℚ) (term : ℕ) (g : ℚ) (hp : priceOf info = 0) (hn : term ≠ 0) :
    compute_forecast info hist amount term true g = .error () := by
  simp only [compute_forecast, hp, dripLoop_zero_price _ _ _ hn]

theorem compute_forecast_true_zero_term (info : Info) (hist : List (ℤ × ℚ))
    (amount : ℚ) (g : ℚ) :
    compute_forecast info hist amount 0 true g =
      .ok ⟨round2 (priceOf info), round2 (rateOf info), round2 (dyOf info * 100),
        round4 (sharesInit info amount),
        round2 (sharesInit info amount * rateOf info), round2 g,
        round2 (priceOf info * (1 + g / 100) ^ (0 : ℕ)),
        round2 (sharesInit info amount * rateOf info * ((0 : ℕ) : ℚ)),
        round2 (sharesInit info amount * (priceOf info * (1 + g / 100) ^ (0 : ℕ)))⟩ :=
  rfl

/-- C10: the forecast output does not depend on the historical price
series argument: for any two series and otherwise identical arguments,
`compute_forecast` returns the same result (the source never reads its
`hist` parameter). -/
theorem claim_C10 :
    ∀ (info : Info) (h1 h2 : List (ℤ × ℚ)) (amount : ℚ) (term : ℕ)
      (drip : Bool) (g : ℚ),
      compute_forecast info h1 amount term drip g =
        compute_forecast info h2 amount term drip g :=
  fun _ _ _ _ _ _ _ => rfl

/-- C9: `compute_forecast` returns a result for every input whose price
is nonzero (strictly positive or strictly negative); for price exactly 0
with DRIP enabled and term at least 1, the reinvestment step divides by
the zero price, so the computation faults there. -/
theorem claim_C9 :
    (∀ (info : Info) (hist : List (ℤ × ℚ)) (amount : ℚ) (term : ℕ)
      (drip : Bool) (g : ℚ), priceOf info ≠ 0 →
      ∃ F, compute_forecast info hist amount term drip g = .ok F) ∧
    (∀ (info : Info) (hist : List (ℤ × ℚ)) (amount : ℚ) (term : ℕ) (g : ℚ),
      priceOf info = 0 → term ≠ 0 →
      compute_forecast info hist amount term true g = .error ()) := by
  constructor
  · intro info hist amount term drip g hp
    cases drip with
    | false => exact ⟨_, compute_forecast_false info hist amount term g⟩
    | true => exact ⟨_, compute_forecast_true_ok info hist amount term g hp⟩
  · intro info hist amount term g hp hn
    exact compute_forecast_true_err info hist amount term g hp hn

/-- Witness for C9 at concrete inputs: price 100 with DRIP succeeds,
price 0 with DRIP and term 1 faults. -/
theorem claim_C9_witness :
    (∃ F, compute_forecast ⟨some 100, some 4, some 0⟩ [] 1000 2 true 0 = .ok F) ∧
    compute_forecast ⟨some 0, some 4, some 0⟩ [] 1000 1 true 0 = .error () :=
  ⟨claim_C9.1 ⟨some 100, some 4, some 0⟩ [] 1000 2 true 0 (by norm_num [priceOf]),
   claim_C9.2 ⟨some 0, some 4, some 0⟩ [] 1000 1 0 (by norm_num [priceOf]) (by norm_num)⟩

/-- C2 (amended): the code applies no cap and computes no wasCapped
flag; for every positive price the reported dividend yield percentage is
the raw `dividendYield` times 100 rounded to two decimals, whatever its
size. -/
theorem claim_C2 :
    ∀ (info : Info) (hist : List (ℤ × ℚ)) (amount : ℚ) (term : ℕ)
      (drip : Bool) (g : ℚ), 0 < priceOf info →
      ∃ F, compute_forecast info hist amount term drip g = .ok F ∧
        F.dividendYieldPct = round2 (dyOf info * 100) := by
  intro info hist amount term drip g hp
  cases drip with
  | false => exact ⟨_, compute_forecast_false info hist amount term g, rfl⟩
  | true => exact ⟨_, compute_forecast_true_ok info hist amount term g (ne_of_gt hp), rfl⟩

/-- Witness for C2 at a concrete input with a 50 percent raw yield. -/
theorem claim_C2_witness :
    ∃ F, compute_forecast ⟨some 100, some 0, some (1/2)⟩ [] 1000 1 false 0 = .ok F ∧
      F.dividendYieldPct = round2 (dyOf ⟨some 100, some 0, some (1/2)⟩ * 100) :=
  claim_C2 ⟨some 100, some 0, some (1/2)⟩ [] 1000 1 false 0 (by norm_num [priceOf])

/-- Counterexample to C2 as stated: with raw yield 0.5 (50 percent,
far above the claimed cap of 0.20) the reported yield is 50, outside
`[0, 20]`, and no capping takes place. -/
theorem claim_C2_counterexample :
    (compute_forecast ⟨some 100, some 0, some (1/2)⟩ [] 1000 1 false 0).toOption.map
      Forecast.dividendYieldPct = some 50 ∧ ¬ ((50 : ℚ) ≤ 20) := by
  constructor
  · norm_num [compute_forecast, priceOf, rawRate, dyOf, rateOf, Except.toOption,
      round2_between 50 5000 (by norm_num) (by norm_num)]
  · norm_num

/-- C1 (amended): `compute_forecast` never raises a typed error.  Every
degenerate input returns a defined result — price at most 0 (outside the
one untyped division fault of price exactly 0 with DRIP and a positive
term) gives zero shares, income and asset value; zero invested amount
gives the same zero-valued fields; a zero normalized dividend rate gives
zero income fields. -/
theorem claim_C1 :
    (∀ (info : Info) (hist : List (ℤ × ℚ)) (amount : ℚ) (term : ℕ)
      (drip : Bool) (g : ℚ), priceOf info ≤ 0 →
      (priceOf info ≠ 0 ∨ drip = false ∨ term = 0) →
      ∃ F, compute_forecast info hist amount term drip g = .ok F ∧
        F.estimatedShares = 0 ∧ F.annualDividendIncome = 0 ∧
        F.totalDividendsOverTerm = 0 ∧ F.projectedAssetValue = 0) ∧
    (∀ (info : Info) (hist : List (ℤ × ℚ)) (term : ℕ) (drip : Bool) (g : ℚ),
      priceOf info ≠ 0 →
      ∃ F, compute_forecast info hist 0 term drip g = .ok F ∧
        F.estimatedShares = 0 ∧ F.annualDividendIncome = 0 ∧
        F.totalDividendsOverTerm = 0 ∧ F.projectedAssetValue = 0) ∧
    (∀ (info : Info) (hist : List (ℤ × ℚ)) (amount : ℚ) (term : ℕ)
      (drip : Bool) (g : ℚ), 0 < priceOf info → rateOf info = 0 →
      ∃ F, compute_forecast info hist amount term drip g = .ok F ∧
        F.annualDividendIncome = 0 ∧ F.totalDividendsOverTerm = 0 ∧
        F.estimatedShares = round4 (amount / priceOf info)) := by
  refine ⟨?_, ?_, ?_⟩
  · intro info hist amount term drip g h1 h2
    have hnp : ¬ 0 < priceOf info := not_lt.mpr h1
    have hs : sharesInit info amount = 0 := if_neg hnp
    cases drip with
    | false =>
      exact ⟨_, compute_forecast_false info hist amount term g, by
        simp [hs, round2_zero, round4_zero], by simp [hs, round2_zero],
        by simp [hs, round2_zero], by simp [hs, round2_zero]⟩
    | true =>
      rcases h2 with hne | hf | hterm
      · exact ⟨_, compute_forecast_true_ok info hist amount term g hne, by
          simp [hs, dripShares_zero_start, round2_zero, round4_zero],
          by simp [hs, round2_zero], by simp [hs, dripShares_zero_start, round2_zero],
          by simp [hs, dripShares_zero_start, round2_zero]⟩
      · exact absurd hf (by simp)
      · subst hterm
        exact ⟨_, compute_forecast_true_zero_term info hist amount g, by
          simp [hs, round2_zero, round4_zero], by simp [hs, round2_zero],
          by simp [hs, round2_zero], by simp [hs, round2_zero]⟩
  · intro info hist term drip g hne
    have hs : sharesInit info 0 = 0 := by
      unfold sharesInit
      split <;> simp
    cases drip with
    | false =>
      exact ⟨_, compute_forecast_false info hist 0 term g, by
        simp [hs, round2_zero, round4_zero], by simp [hs, round2_zero],
        by simp [hs, round2_zero], by simp [hs, round2_zero]⟩
    | true =>
      exact ⟨_, compute_forecast_true_ok info hist 0 term g hne, by
        simp [hs, dripShares_zero_start, round2_zero, round4_zero],
        by simp [hs, round2_zero], by simp [hs, dripShares_zero_start, round2_zero],
        by simp [hs, dripShares_zero_start, round2_zero]⟩
  · intro info hist amount term drip g hp hr
    have hs : sharesInit info amount = amount / priceOf info := if_pos hp
    cases drip with
    | false =>
      exact ⟨_, compute_forecast_false info hist amount term g, by
        simp [hr, round2_zero], by simp [hr, round2_zero], by simp [hs]⟩
    | true =>
      exact ⟨_, compute_forecast_true_ok info hist amount term g (ne_of_gt hp), by
        simp [hr, round2_zero], by simp [hr, round2_zero],
        by simp [hr, hs, dripShares_rate_zero]⟩

/-- Witness for C1: a negative price with no DRIP returns a defined
all-zero-value result. -/
theorem claim_C1_witness :
    ∃ F, compute_forecast ⟨some (-5), some 2, some 0⟩ [] 1000 3 false 0 = .ok F ∧
      F.estimatedShares = 0 ∧ F.annualDividendIncome = 0 ∧
      F.totalDividendsOverTerm = 0 ∧ F.projectedAssetValue = 0 :=
  claim_C1.1 ⟨some (-5), some 2, some 0⟩ [] 1000 3 false 0
    (by norm_num [priceOf]) (Or.inr (Or.inl rfl))

/-- Counterexample to C1 as stated: at price -1 (which is at most 0,
with growth rate 0 so that no override rescues the projection) the code
does not raise any error; it returns a defined result. -/
theorem claim_C1_counterexample :
    (compute_forecast ⟨some (-1), some 4, some 0⟩ [] 1000 1 false 0).toOption =
      some ⟨-1, 4, 0, 0, 0, 0, -1, 0, 0⟩ := by
  rw [compute_forecast_false, Except.toOption]
  norm_num [priceOf, rawRate, dyOf, rateOf, sharesInit, round2_zero, round4_zero,
    round2_between (-1) (-100) (by norm_num) (by norm_num),
    round2_between 4 400 (by norm_num) (by norm_num)]

/-- C3: in DRIP mode with positive price, nonnegative dividend rate and
term `n`, the final share count is `n` whole-year steps of
`shares += shares * rate / price` starting from `amount / price`; the
future price is `price * (1 + growth / 100) ^ n`, the projected asset
value is final shares times future price, and the total dividends are
final shares times rate times `n` (each reported rounded to 4 or 2
decimals); in particular price 100, amount 1000, rate 4, term 2,
growth 0 gives shares 10, 10.4, 10.816 and asset value 1081.6. -/
theorem claim_C3 :
    (∀ (info : Info) (hist : List (ℤ × ℚ)) (amount : ℚ) (n : ℕ) (g : ℚ),
      0 < priceOf info → 0 ≤ rateOf info →
      compute_forecast info hist amount n true g =
        .ok ⟨round2 (priceOf info), round2 (rateOf info), round2 (dyOf info * 100),
          round4 (dripShares (priceOf info) (rateOf info) (amount / priceOf info) n),
          round2 (amount / priceOf info * rateOf info), round2 g,
          round2 (priceOf info * (1 + g / 100) ^ n),
          round2 (dripShares (priceOf info) (rateOf info) (amount / priceOf info) n *
            rateOf info * (n : ℚ)),
          round2 (dripShares (priceOf info) (rateOf info) (amount / priceOf info) n *
            (priceOf info * (1 + g / 100) ^ n))⟩) ∧
    (∀ (p r s : ℚ) (n : ℕ),
      dripShares p r s 0 = s ∧ dripShares p r s (n + 1) = dripShares p r (s + s * r / p) n) ∧
    (dripShares 100 4 10 1 = 10.4 ∧ dripShares 100 4 10 2 = 10.816) ∧
    compute_forecast ⟨some 100, some 4, some 0⟩ [] 1000 2 true 0 =
      .ok ⟨100, 4, 0, 10.816, 40, 0, 100, 86.53, 1081.6⟩ := by
  refine ⟨?_, ?_, ?_, ?_⟩
  · intro info hist amount n g hp _hr
    rw [compute_forecast_true_ok info hist amount n g (ne_of_gt hp)]
    simp only [sharesInit, if_pos hp]
  · exact fun p r s n => ⟨rfl, rfl⟩
  · constructor <;> norm_num [dripShares]
  · norm_num [compute_forecast, priceOf, rawRate, dyOf, rateOf, sharesInit,
      dripLoop, dripStep,
      round2_between 100 10000 (by norm_num) (by norm_num),
      round2_between 0 0 (by norm_num) (by norm_num),
      round2_between 4 400 (by norm_num) (by norm_num),
      round2_between 40 4000 (by norm_num) (by norm_num),
      round2_between (10816/125) 8653 (by norm_num) (by norm_num),
      round2_between (5408/5) 108160 (by norm_num) (by norm_num),
      round4_between (1352/125) 108160 (by norm_num) (by norm_num)]

/-- Witness for C3 at price 100, rate 4, amount 1000, term 2, growth 0. -/
theorem claim_C3_witness :
    compute_forecast ⟨some 100, some 4, some 0⟩ [] 1000 2 true 0 =
      .ok ⟨round2 (priceOf ⟨some 100, some 4, some 0⟩),
        round2 (rateOf ⟨some 100, some 4, some 0⟩),
        round2 (dyOf ⟨some 100, some 4, some 0⟩ * 100),
        round4 (dripShares (priceOf ⟨some 100, some 4, some 0⟩)
          (rateOf ⟨some 100, some 4, some 0⟩)
          (1000 / priceOf ⟨some 100, some 4, some 0⟩) 2),
        round2 (1000 / priceOf ⟨some 100, some 4, some 0⟩ *
          rateOf ⟨some 100, some 4, some 0⟩), round2 0,
        round2 (priceOf ⟨some 100, some 4, some 0⟩ * (1 + 0 / 100) ^ (2 : ℕ)),
        round2 (dripShares (priceOf ⟨some 100, some 4, some 0⟩)
          (rateOf ⟨some 100, some 4, some 0⟩)
          (1000 / priceOf ⟨some 100, some 4, some 0⟩) 2 *
          rateOf ⟨some 100, some 4, some 0⟩ * ((2 : ℕ) : ℚ)),
        round2 (dripShares (priceOf ⟨some 100, some 4, some 0⟩)
          (rateOf ⟨some 100, some 4, some 0⟩)
          (1000 / priceOf ⟨some 100, some 4, some 0⟩) 2 *
          (priceOf ⟨some 100, some 4, some 0⟩ * (1 + 0 / 100) ^ (2 : ℕ)))⟩ :=
  claim_C3.1 ⟨some 100, some 4, some 0⟩ [] 1000 2 0
    (by norm_num [priceOf]) (by norm_num [rateOf, rawRate, dyOf, priceOf])

/-- C4: in non-DRIP mode with positive price the share count is
`amount / price` throughout, the annual dividend is shares times rate,
total dividends are annual dividend times term, the future price is
`price * (1 + growth / 100) ^ term` and the projected asset value is
shares times future price; in particular price 100, amount 1000,
rate 4, term 1, growth 0 gives shares 10, income 40, total 40, future
price 100 and asset value 1000. -/
theorem claim_C4 :
    (∀ (info : Info) (hist : List (ℤ × ℚ)) (amount : ℚ) (n : ℕ) (g : ℚ),
      0 < priceOf info →
      compute_forecast info hist amount n false g =
        .ok ⟨round2 (priceOf info), round2 (rateOf info), round2 (dyOf info * 100),
          round4 (amount / priceOf info),
          round2 (amount / priceOf info * rateOf info), round2 g,
          round2 (priceOf info * (1 + g / 100) ^ n),
          round2 (amount / priceOf info * rateOf info * (n : ℚ)),
          round2 (amount / priceOf info * (priceOf info * (1 + g / 100) ^ n))⟩) ∧
    compute_forecast ⟨some 100, some 4, some 0⟩ [] 1000 1 false 0 =
      .ok ⟨100, 4, 0, 10, 40, 0, 100, 40, 1000⟩ := by
  constructor
  · intro info hist amount n g hp
    rw [compute_forecast_false info hist amount n g]
    simp only [sharesInit, if_pos hp]
  · norm_num [compute_forecast, priceOf, rawRate, dyOf, rateOf, sharesInit,
      round2_between 100 10000 (by norm_num) (by norm_num),
      round2_between 0 0 (by norm_num) (by norm_num),
      round2_between 4 400 (by norm_num) (by norm_num),
      round2_between 40 4000 (by norm_num) (by norm_num),
      round2_between 1000 100000 (by norm_num) (by norm_num),
      round4_between 10 100000 (by norm_num) (by norm_num)]

/-- Witness for C4 at price 100, amount 1000, rate 4, term 1, growth 0. -/
theorem claim_C4_witness :
    compute_forecast ⟨some 100, some 4, some 0⟩ [] 1000 1 false 0 =
      .ok ⟨round2 (priceOf ⟨some 100, some 4, some 0⟩),
        round2 (rateOf ⟨some 100, some 4, some 0⟩),
        round2 (dyOf ⟨some 100, some 4, some 0⟩ * 100),
        round4 (1000 / priceOf ⟨some 100, some 4, some 0⟩),
        round2 (1000 / priceOf ⟨some 100, some 4, some 0⟩ *
          rateOf ⟨some 100, some 4, some 0⟩), round2 0,
        round2 (priceOf ⟨some 100, some 4, some 0⟩ * (1 + 0 / 100) ^ (1 : ℕ)),
        round2 (1000 / priceOf ⟨some 100, some 4, some 0⟩ *
          rateOf ⟨some 100, some 4, some 0⟩ * ((1 : ℕ) : ℚ)),
        round2 (1000 / priceOf ⟨some 100, some 4, some 0⟩ *
          (priceOf ⟨some 100, some 4, some 0⟩ * (1 + 0 / 100) ^ (1 : ℕ)))⟩ :=
  claim_C4.1 ⟨some 100, some 4, some 0⟩ [] 1000 1 0 (by norm_num [priceOf])

/-- C5 (amended): the forecast result carries exactly the nine fields
built on lines 76-86 — no daily, weekly or monthly income field is
computed in either mode. -/
theorem claim_C5 :
    ∀ F : Forecast,
      (forecastDict F).map Prod.fst =
        ["Current Price", "Dividend/Share ($/yr)", "Dividend Yield (%)",
         "Estimated Shares", "Annual Dividend Income ($)", "Growth Rate Used (%)",
         "Future Price Estimate", "Total Dividends Over Term",
         "Projected Asset Value"] ∧
      ¬ ("dailyIncome" ∈ (forecastDict F).map Prod.fst) ∧
      ¬ ("weeklyIncome" ∈ (forecastDict F).map Prod.fst) ∧
      ¬ ("monthlyIncome" ∈ (forecastDict F).map Prod.fst) := by
  intro F
  refine ⟨rfl, ?_, ?_, ?_⟩ <;> simp [forecastDict]

/-- Counterexample to C5 as stated: at a concrete input the returned
dict holds only the nine keys of lines 76-86; none of the claimed
daily, weekly or monthly income fields exists. -/
theorem claim_C5_counterexample :
    (compute_forecast ⟨some 100, some 4, some 0⟩ [] 1000 1 false 0).toOption.map
        (fun F => (forecastDict F).map Prod.fst) =
      some ["Current Price", "Dividend/Share ($/yr)", "Dividend Yield (%)",
        "Estimated Shares", "Annual Dividend Income ($)", "Growth Rate Used (%)",
        "Future Price Estimate", "Total Dividends Over Term",
        "Projected Asset Value"] ∧
    ¬ ("dailyIncome" ∈
      ["Current Price", "Dividend/Share ($/yr)", "Dividend Yield (%)",
       "Estimated Shares", "Annual Dividend Income ($)", "Growth Rate Used (%)",
       "Future Price Estimate", "Total Dividends Over Term",
       "Projected Asset Value"]) := by
  constructor
  · rw [compute_forecast_false]
    rfl
  · simp

/-- C6 (amended): the reported yield is never derived from the rate:
when `dividendYield` is absent or zero the reported yield percentage is
0 even with a positive rate and price, and the rate itself passes
through unchanged (the source only ever derives the rate from the
yield, lines 58-59). -/
theorem claim_C6 :
    ∀ (info : Info) (hist : List (ℤ × ℚ)) (amount : ℚ) (term : ℕ)
      (drip : Bool) (g : ℚ), dyOf info = 0 → 0 < priceOf info →
      ∃ F, compute_forecast info hist amount term drip g = .ok F ∧
        F.dividendYieldPct = 0 ∧ F.dividendPerShare = round2 (rawRate info) ∧
        rateOf info = rawRate info := by
  intro info hist amount term drip g hdy hp
  have hr : rateOf info = rawRate info := by
    unfold rateOf
    rw [if_neg]
    rw [hdy]
    simp
  cases drip with
  | false =>
    exact ⟨_, compute_forecast_false info hist amount term g,
      by simp [hdy, round2_zero], by rw [hr], hr⟩
  | true =>
    exact ⟨_, compute_forecast_true_ok info hist amount term g (ne_of_gt hp),
      by simp [hdy, round2_zero], by rw [hr], hr⟩

/-- Witness for C6 at rate 4, price 100, yield absent (0). -/
theorem claim_C6_witness :
    ∃ F, compute_forecast ⟨some 100, some 4, some 0⟩ [] 1000 1 false 0 = .ok F ∧
      F.dividendYieldPct = 0 ∧
      F.dividendPerShare = round2 (rawRate ⟨some 100, some 4, some 0⟩) ∧
      rateOf ⟨some 100, some 4, some 0⟩ = rawRate ⟨some 100, some 4, some 0⟩ :=
  claim_C6 ⟨some 100, some 4, some 0⟩ [] 1000 1 false 0
    (by norm_num [dyOf]) (by norm_num [priceOf])

/-- Counterexample to C6 as stated: with rate 4, price 100 and yield
absent, the claim demands a reported yield of rate / price, i.e. 4
percent, but the code reports 0. -/
theorem claim_C6_counterexample :
    (compute_forecast ⟨some 100, some 4, some 0⟩ [] 1000 1 false 0).toOption.map
      Forecast.dividendYieldPct = some 0 ∧
    round2 (rawRate ⟨some 100, some 4, some 0⟩ /
      priceOf ⟨some 100, some 4, some 0⟩ * 100) = 4 ∧ (0 : ℚ) ≠ 4 := by
  refine ⟨?_, ?_, by norm_num⟩
  · rw [compute_forecast_false, Except.toOption]
    norm_num [dyOf, round2_zero]
  · norm_num [rawRate, priceOf, round2_between 4 400 (by norm_num) (by norm_num)]

/-- C8: whenever the last 14-period window of deltas has average loss 0
and contains at least one positive gain, the RSI computation returns
exactly 100 (no division fault: the float division by a zero average
loss yields infinity and `100 - 100 / (1 + RS)` collapses to 100), and
trend classification at 100 gives Overbought since 100 exceeds 70. -/
theorem claim_C8 (s : List ℚ)
    (hlen : 14 ≤ (deltas s).length)
    (hloss : ((lastWindow 14 (deltas s)).map (fun x => max (-x) 0)).sum / (14 : ℚ) = 0)
    (hgain : ∃ x ∈ lastWindow 14 (deltas s), 0 < x) :
    compute_rsi s 14 = some 100 ∧ classify_trend 100 = "Overbought" := by
  obtain ⟨x, hx, hxpos⟩ := hgain
  have hne : deltas s ≠ [] := by
    intro h
    rw [h] at hlen
    simp at hlen
  have hnl : ¬ (deltas s).length < 14 := not_lt.mpr hlen
  have hgain0 :
      ((lastWindow 14 (deltas s)).map (fun y => max y 0)).sum / (14 : ℚ) ≠ 0 := by
    have hnn : ∀ y ∈ (lastWindow 14 (deltas s)).map (fun y => max y 0), 0 ≤ y := by
      intro y hy
      obtain ⟨t, _, rfl⟩ := List.mem_map.mp hy
      exact le_max_right t 0
    have hmem : max x 0 ∈ (lastWindow 14 (deltas s)).map (fun y => max y 0) :=
      List.mem_map_of_mem _ hx
    have hle := List.single_le_sum hnn _ hmem
    have hpos : (0 : ℚ) < ((lastWindow 14 (deltas s)).map (fun y => max y 0)).sum :=
      lt_of_lt_of_le (lt_of_lt_of_le hxpos (le_max_left x 0)) hle
    exact ne_of_gt (div_pos hpos (by norm_num))
  constructor
  · simp only [compute_rsi, if_neg hne, if_neg hnl, Nat.cast_ofNat]
    rw [if_pos hloss, if_neg hgain0]
  · norm_num [classify_trend]

/-- Witness for C8: fifteen strictly rising closes give fourteen
positive deltas, a zero average loss, RSI 100 and an Overbought trend. -/
theorem claim_C8_witness :
    compute_rsi [1, 2, 3, 4, 5, 6, 7, 8, 9, 10, 11, 12, 13, 14, 15] 14 = some 100 ∧
      classify_trend 100 = "Overbought" :=
  claim_C8 [1, 2, 3, 4, 5, 6, 7, 8, 9, 10, 11, 12, 13, 14, 15]
    (by norm_num [deltas])
    (by norm_num [deltas, lastWindow])
    ⟨1, by norm_num [deltas, lastWindow], by norm_num⟩

/-- C7: the CAGR component of `calculate_cagr` is 0 for a series of
fewer than two points, 0 when the first close is nonpositive or the
elapsed years (day difference over 365) are nonpositive, and otherwise
`((last / first) ^ (1 / years) - 1) * 100` rounded to two decimals; on
the two-point series (0, 100), (365, 121) spanning exactly one year it
returns 21. -/
theorem claim_C7 :
    (∀ hist : List (ℤ × ℝ), hist.length < 2 → calculate_cagr hist = (0, 0, 0)) ∧
    (∀ hist : List (ℤ × ℝ), 2 ≤ hist.length →
      (hist.headI.2 ≤ 0 ∨ ((hist.getLastI.1 - hist.headI.1 : ℤ) : ℝ) / 365 ≤ 0) →
      (calculate_cagr hist).1 = 0) ∧
    (∀ hist : List (ℤ × ℝ), 2 ≤ hist.length → 0 < hist.headI.2 →
      0 < ((hist.getLastI.1 - hist.headI.1 : ℤ) : ℝ) / 365 →
      (calculate_cagr hist).1 =
        rround2 (((hist.getLastI.2 / hist.headI.2) ^
          (1 / (((hist.getLastI.1 - hist.headI.1 : ℤ) : ℝ) / 365)) - 1) * 100)) ∧
    (calculate_cagr [((0 : ℤ), (100 : ℝ)), ((365 : ℤ), (121 : ℝ))]).1 = 21 := by
  have part3 : ∀ hist : List (ℤ × ℝ), 2 ≤ hist.length → 0 < hist.headI.2 →
      0 < ((hist.getLastI.1 - hist.headI.1 : ℤ) : ℝ) / 365 →
      (calculate_cagr hist).1 =
        rround2 (((hist.getLastI.2 / hist.headI.2) ^
          (1 / (((hist.getLastI.1 - hist.headI.1 : ℤ) : ℝ) / 365)) - 1) * 100) := by
    intro hist h2 h3 h4
    simp only [calculate_cagr, if_neg (not_lt.mpr h2),
      if_neg (not_or.mpr ⟨not_le.mpr h3, not_le.mpr h4⟩)]
  refine ⟨?_, ?_, part3, ?_⟩
  · intro hist h
    simp only [calculate_cagr, if_pos h]
  · intro hist h2 hcond
    simp only [calculate_cagr, if_neg (not_lt.mpr h2), if_pos hcond]
  · rw [part3 _ (by norm_num) (by norm_num [List.headI])
      (by norm_num [List.getLastI, List.headI])]
    have hyears :
        (1 : ℝ) / ((((([((0 : ℤ), (100 : ℝ)), ((365 : ℤ), (121 : ℝ))].getLastI.1 -
          [((0 : ℤ), (100 : ℝ)), ((365 : ℤ), (121 : ℝ))].headI.1 : ℤ)) : ℝ)) / 365) = 1 := by
      norm_num [List.getLastI, List.headI]
    rw [hyears, Real.rpow_one]
    have hval : (([((0 : ℤ), (100 : ℝ)), ((365 : ℤ), (121 : ℝ))].getLastI.2 /
        [((0 : ℤ), (100 : ℝ)), ((365 : ℤ), (121 : ℝ))].headI.2 - 1) * 100 : ℝ) = 21 := by
      norm_num [List.getLastI, List.headI]
    rw [hval]
    unfold rround2
    norm_num

/-- Witness for C7: a one-point series gives the zero triple, a
two-point series with zero elapsed days gives CAGR 0, and the one-year
doubling-free example gives 21 percent. -/
theorem claim_C7_witness :
    calculate_cagr [((0 : ℤ), (100 : ℝ))] = (0, 0, 0) ∧
    (calculate_cagr [((0 : ℤ), (100 : ℝ)), ((0 : ℤ), (121 : ℝ))]).1 = 0 ∧
    (calculate_cagr [((0 : ℤ), (100 : ℝ)), ((365 : ℤ), (121 : ℝ))]).1 = 21 :=
  ⟨claim_C7.1 _ (by norm_num),
   claim_C7.2.1 _ (by norm_num)
     (Or.inr (by norm_num [List.getLastI, List.headI])),
   claim_C7.2.2.2⟩

end CashCurve
